import Mathlib

/-!
Verification of the stake-engine-client parameter resolution, amount
conversion and request construction layer, embedded shallowly from the
client source (the high-level client module, the low-level fetcher and
the amount-conversion constants).

Modelling conventions:
* URL query parameters are `Option String` (absent parameters are `none`,
  mirroring `URLSearchParams.get` returning `null`).
* JavaScript truthiness on strings (`null`, `undefined` and the empty
  string are falsy) is `truthy`; the JavaScript `||` operator on such
  values is `jsOr` and `jsOrD`.
* Monetary amounts are rationals (`ℚ`), the exact model of finite decimal
  inputs; the client performs only multiplication on them.
* Each operation is a pure function from its options and the ambient URL
  context to `Except String _`: either the synchronously raised error
  message, or the single HTTP request description handed to the client.
  The network is an oracle `Request → HttpResponse`; `runPost`/`runGet`
  return the list of issued requests together with the final outcome, so
  that "no request is sent" and "exactly one request is sent" are
  statable.
-/

/-- JavaScript truthiness of a nullable string: `null`/`undefined` (here
`none`) and the empty string are falsy, every other string is truthy. -/
def truthy : Option String → Bool
  | none => false
  | some s => s != ""

/-- The JavaScript expression `a || b` on nullable strings: `a` when `a`
is truthy, otherwise `b`. -/
def jsOr (a b : Option String) : Option String :=
  if truthy a then a else b

/-- The JavaScript expression `a || d` where the right operand is an
always-defined string: the string in `a` when `a` is truthy, otherwise
`d`. -/
def jsOrD (a : Option String) (d : String) : String :=
  if truthy a then a.getD "" else d

/-- The ambient browser URL context: the query parameters the client
reads via `URLSearchParams` (`sessionID`, `rgs_url`, `lang`,
`currency`). A `none` field means the parameter is absent from the
URL. -/
structure UrlCtx where
  sessionID : Option String := none
  rgs_url : Option String := none
  lang : Option String := none
  currency : Option String := none
deriving DecidableEq

/-- A URL context with no parameters at all. -/
def emptyCtx : UrlCtx := {}

/-- Result shape of the client helper `getUrlParams`. -/
structure UrlParams where
  sessionID : Option String
  rgsUrl : Option String
  language : String
  currency : String
deriving DecidableEq

/-- Model of the client helper `getUrlParams`:
`sessionID = urlParams.get('sessionID')`, `rgsUrl = urlParams.get('rgs_url')`,
`language = urlParams.get('lang') || 'en'`,
`currency = urlParams.get('currency') || 'USD'`. -/
def getUrlParams (ctx : UrlCtx) : UrlParams :=
  { sessionID := ctx.sessionID
    rgsUrl := ctx.rgs_url
    language := jsOrD ctx.lang "en"
    currency := jsOrD ctx.currency "USD" }

/-- The exported constant `API_AMOUNT_MULTIPLIER` (API format:
1,000,000 = one currency unit). -/
def API_AMOUNT_MULTIPLIER : ℚ := 1000000

/-- The exported constant `BOOK_AMOUNT_MULTIPLIER` (book format:
100 = one currency unit). -/
def BOOK_AMOUNT_MULTIPLIER : ℚ := 100

/-- Optional search criteria of `forceResult` (the `search` object). -/
structure SearchOptions where
  bookID : Option ℚ := none
  kind : Option ℚ := none
  symbol : Option String := none
  hasWild : Option Bool := none
  wildMult : Option ℚ := none
  gameType : Option String := none
deriving DecidableEq

/-- JSON values appearing in request bodies and parsed response bodies of
this client: strings, numbers, booleans, and the one nested object shape
the client ever sends (the `search` criteria of `forceResult`). -/
inductive JVal where
  | str (s : String)
  | num (q : ℚ)
  | bool (b : Bool)
  | searchObj (s : SearchOptions)
deriving DecidableEq

/-- JavaScript truthiness of a JSON value. -/
def truthyJ : JVal → Bool
  | .str s => s != ""
  | .num q => q != 0
  | .bool b => b
  | .searchObj _ => true

/-- JavaScript string coercion of a JSON value (as used by
`new Error(value)` on a non-string). -/
def jsToString : JVal → String
  | .str s => s
  | .num q => toString q
  | .bool b => if b then "true" else "false"
  | .searchObj _ => "[object Object]"

/-- Field lookup in a JSON object, represented as an association list in
serialization order. -/
def lookupField (fields : List (String × JVal)) (name : String) : Option JVal :=
  (fields.find? (fun p => p.1 == name)).map (fun p => p.2)

/-- HTTP method of a fetcher request. -/
inductive Method where
  | POST
  | GET
deriving DecidableEq

/-- The options accepted by the low-level `fetcher` function. -/
structure FetcherOptions where
  method : Method
  endpoint : String
  vars : Option (List (String × JVal)) := none
deriving DecidableEq

/-- An outbound HTTP request as the fetcher builds it. -/
structure Request where
  method : Method
  endpoint : String
  contentType : String
  body : Option (List (String × JVal))
deriving DecidableEq

/-- Model of the low-level `fetcher`: it sets the
`Content-Type: application/json` header, serializes `vars` to JSON
for POST requests, and omits the body for GET requests. -/
def fetcher (o : FetcherOptions) : Request :=
  { method := o.method
    endpoint := o.endpoint
    contentType := "application/json"
    body := match o.method with
      | .POST => o.vars
      | .GET => none }

/-- An HTTP response as the client observes it: status, status text, and
the result of attempting to parse the body as JSON (`none` when the body
is not parseable JSON). -/
structure HttpResponse where
  status : Nat
  statusText : String
  jsonBody : Option (List (String × JVal)) := none
deriving DecidableEq

/-- The error message raised by `StakeEngineClient.post` and
`StakeEngineClient.get` on a non-200 response (the same expression
appears verbatim in both methods):
`errorData.message || "RGS API error: " + status + " " + statusText`,
where `errorData` is the parsed JSON body, or `{}` when parsing fails. -/
def rgsErrorMessage (response : HttpResponse) : String :=
  let errorData := response.jsonBody.getD []
  match lookupField errorData "message" with
  | some v =>
    if truthyJ v then jsToString v
    else "RGS API error: " ++ toString response.status ++ " " ++ response.statusText
  | none => "RGS API error: " ++ toString response.status ++ " " ++ response.statusText

/-- Options of `StakeEngineClient.post`. -/
structure StakeEngineClient.PostOptions where
  url : String
  rgsUrl : String
  vars : Option (List (String × JVal)) := none
deriving DecidableEq

/-- The single fetcher call made by `StakeEngineClient.post`:
`fetcher({ method: POST, vars, endpoint: "https://" + rgsUrl + url })`. -/
def StakeEngineClient.postRequest (o : StakeEngineClient.PostOptions) : Request :=
  fetcher { method := .POST, vars := o.vars, endpoint := "https://" ++ o.rgsUrl ++ o.url }

/-- Model of `StakeEngineClient.post`: issue the request, and on a
non-200 status raise the error with message `rgsErrorMessage`; on 200
return the parsed JSON body (a 200 body that is not parseable JSON makes
`response.json()` itself raise). -/
def StakeEngineClient.post (o : StakeEngineClient.PostOptions)
    (net : Request → HttpResponse) : Except String (List (String × JVal)) :=
  let response := net (StakeEngineClient.postRequest o)
  if response.status ≠ 200 then .error (rgsErrorMessage response)
  else match response.jsonBody with
    | some data => .ok data
    | none => .error "SyntaxError: the response body is not valid JSON"

/-- Options of `StakeEngineClient.get`. -/
structure StakeEngineClient.GetOptions where
  url : String
  rgsUrl : String
deriving DecidableEq

/-- The single fetcher call made by `StakeEngineClient.get`:
`fetcher({ method: GET, endpoint: "https://" + rgsUrl + url })`
(no vars are passed). -/
def StakeEngineClient.getRequest (o : StakeEngineClient.GetOptions) : Request :=
  fetcher { method := .GET, endpoint := "https://" ++ o.rgsUrl ++ o.url, vars := none }

/-- Model of `StakeEngineClient.get`: same response handling as
`StakeEngineClient.post` (the source duplicates the identical logic). -/
def StakeEngineClient.get (o : StakeEngineClient.GetOptions)
    (net : Request → HttpResponse) : Except String (List (String × JVal)) :=
  let response := net (StakeEngineClient.getRequest o)
  if response.status ≠ 200 then .error (rgsErrorMessage response)
  else match response.jsonBody with
    | some data => .ok data
    | none => .error "SyntaxError: the response body is not valid JSON"

/-- The message of the error thrown when `sessionID` cannot be
resolved. -/
def sessionIDRequiredMsg : String := "sessionID is required (provide in options or URL param)"

/-- The message of the error thrown when `rgsUrl` cannot be resolved. -/
def rgsUrlRequiredMsg : String := "rgsUrl is required (provide in options or rgs_url URL param)"

/-- Options of `authenticate` (all optional in the source). -/
structure AuthenticateOptions where
  sessionID : Option String := none
  rgsUrl : Option String := none
  language : Option String := none
deriving DecidableEq

/-- Model of `authenticate`: resolve `sessionID`, `rgsUrl`, `language`
(explicit option `||` URL parameter), throw synchronously when
`sessionID` or `rgsUrl` is falsy, otherwise POST to
`/wallet/authenticate` with body `{ sessionID, language }`. -/
def authenticate (options : AuthenticateOptions) (ctx : UrlCtx) :
    Except String StakeEngineClient.PostOptions :=
  let urlParams := getUrlParams ctx
  let sessionID := jsOr options.sessionID urlParams.sessionID
  let rgsUrl := jsOr options.rgsUrl urlParams.rgsUrl
  let language := jsOrD options.language urlParams.language
  if !truthy sessionID then .error sessionIDRequiredMsg
  else if !truthy rgsUrl then .error rgsUrlRequiredMsg
  else .ok
    { rgsUrl := rgsUrl.getD ""
      url := "/wallet/authenticate"
      vars := some [
        ("sessionID", .str (sessionID.getD "")),
        ("language", .str language)] }

/-- Options of `play` (`amount` and `mode` required). -/
structure PlayOptions where
  amount : ℚ
  mode : String
  currency : Option String := none
  sessionID : Option String := none
  rgsUrl : Option String := none
deriving DecidableEq

/-- Model of `play`: resolve `sessionID`, `rgsUrl`, `currency`, throw
synchronously when `sessionID` or `rgsUrl` is falsy, otherwise POST to
`/wallet/play` with body `{ mode, currency, sessionID,
amount: options.amount * API_AMOUNT_MULTIPLIER }` (the conversion is a
bare multiplication; the source applies no rounding). -/
def play (options : PlayOptions) (ctx : UrlCtx) :
    Except String StakeEngineClient.PostOptions :=
  let urlParams := getUrlParams ctx
  let sessionID := jsOr options.sessionID urlParams.sessionID
  let rgsUrl := jsOr options.rgsUrl urlParams.rgsUrl
  let currency := jsOrD options.currency urlParams.currency
  if !truthy sessionID then .error sessionIDRequiredMsg
  else if !truthy rgsUrl then .error rgsUrlRequiredMsg
  else .ok
    { rgsUrl := rgsUrl.getD ""
      url := "/wallet/play"
      vars := some [
        ("mode", .str options.mode),
        ("currency", .str currency),
        ("sessionID", .str (sessionID.getD "")),
        ("amount", .num (options.amount * API_AMOUNT_MULTIPLIER))] }

/-- Options of `endRound` (all optional in the source). -/
structure EndRoundOptions where
  sessionID : Option String := none
  rgsUrl : Option String := none
deriving DecidableEq

/-- Model of `endRound`: resolve `sessionID` and `rgsUrl`, throw
synchronously when either is falsy, otherwise POST to
`/wallet/end-round` with body `{ sessionID }`. -/
def endRound (options : EndRoundOptions) (ctx : UrlCtx) :
    Except String StakeEngineClient.PostOptions :=
  let urlParams := getUrlParams ctx
  let sessionID := jsOr options.sessionID urlParams.sessionID
  let rgsUrl := jsOr options.rgsUrl urlParams.rgsUrl
  if !truthy sessionID then .error sessionIDRequiredMsg
  else if !truthy rgsUrl then .error rgsUrlRequiredMsg
  else .ok
    { rgsUrl := rgsUrl.getD ""
      url := "/wallet/end-round"
      vars := some [("sessionID", .str (sessionID.getD ""))] }

/-- Options of `endEvent` (`eventIndex` required; the source declares it
as a JavaScript number, modelled here as an integer index). -/
structure EndEventOptions where
  eventIndex : Int
  sessionID : Option String := none
  rgsUrl : Option String := none
deriving DecidableEq

/-- Model of `endEvent`: resolve `sessionID` and `rgsUrl`, throw
synchronously when either is falsy, otherwise POST to `/bet/event` with
body `{ sessionID, event: template string of eventIndex }` — the
template literal turns the numeric index into its decimal string. -/
def endEvent (options : EndEventOptions) (ctx : UrlCtx) :
    Except String StakeEngineClient.PostOptions :=
  let urlParams := getUrlParams ctx
  let sessionID := jsOr options.sessionID urlParams.sessionID
  let rgsUrl := jsOr options.rgsUrl urlParams.rgsUrl
  if !truthy sessionID then .error sessionIDRequiredMsg
  else if !truthy rgsUrl then .error rgsUrlRequiredMsg
  else .ok
    { rgsUrl := rgsUrl.getD ""
      url := "/bet/event"
      vars := some [
        ("sessionID", .str (sessionID.getD "")),
        ("event", .str (toString options.eventIndex))] }

/-- Options of `forceResult` (`mode` and `search` required). -/
structure ForceResultOptions where
  mode : String
  search : SearchOptions
  rgsUrl : Option String := none
deriving DecidableEq

/-- Model of `forceResult`: resolve `rgsUrl` only (no `sessionID` is
used), throw synchronously when it is falsy, otherwise POST to
`/game/search` with body `{ mode, search }`. -/
def forceResult (options : ForceResultOptions) (ctx : UrlCtx) :
    Except String StakeEngineClient.PostOptions :=
  let urlParams := getUrlParams ctx
  let rgsUrl := jsOr options.rgsUrl urlParams.rgsUrl
  if !truthy rgsUrl then .error rgsUrlRequiredMsg
  else .ok
    { rgsUrl := rgsUrl.getD ""
      url := "/game/search"
      vars := some [
        ("mode", .str options.mode),
        ("search", .searchObj options.search)] }

/-- Options of `getBalance` (all optional in the source). -/
structure BalanceOptions where
  sessionID : Option String := none
  rgsUrl : Option String := none
deriving DecidableEq

/-- Model of `getBalance`: resolve `sessionID` and `rgsUrl`, throw
synchronously when either is falsy, otherwise POST to `/wallet/balance`
with body `{ sessionID }`. -/
def getBalance (options : BalanceOptions) (ctx : UrlCtx) :
    Except String StakeEngineClient.PostOptions :=
  let urlParams := getUrlParams ctx
  let sessionID := jsOr options.sessionID urlParams.sessionID
  let rgsUrl := jsOr options.rgsUrl urlParams.rgsUrl
  if !truthy sessionID then .error sessionIDRequiredMsg
  else if !truthy rgsUrl then .error rgsUrlRequiredMsg
  else .ok
    { rgsUrl := rgsUrl.getD ""
      url := "/wallet/balance"
      vars := some [("sessionID", .str (sessionID.getD ""))] }

/-- Options of `replay` (`game`, `version`, `mode`, `event` required). -/
structure ReplayOptions where
  game : String
  version : String
  mode : String
  event : String
  rgsUrl : Option String := none
deriving DecidableEq

/-- Model of `replay`: resolve `rgsUrl` only (no `sessionID` is used),
throw synchronously when it is falsy, otherwise GET
`/bet/replay/{game}/{version}/{mode}/{event}` — a template literal that
substitutes the four segments in order; no vars are passed. -/
def replay (options : ReplayOptions) (ctx : UrlCtx) :
    Except String StakeEngineClient.GetOptions :=
  let urlParams := getUrlParams ctx
  let rgsUrl := jsOr options.rgsUrl urlParams.rgsUrl
  if !truthy rgsUrl then .error rgsUrlRequiredMsg
  else .ok
    { rgsUrl := rgsUrl.getD ""
      url := "/bet/replay/" ++ options.game ++ "/" ++ options.version ++ "/"
               ++ options.mode ++ "/" ++ options.event }

/-- Deprecated alias from the source: `export const requestBet = play`. -/
def requestBet := play

/-- Deprecated alias from the source:
`export const requestAuthenticate = authenticate`. -/
def requestAuthenticate := authenticate

/-- Deprecated alias from the source:
`export const requestBalance = getBalance`. -/
def requestBalance := getBalance

/-- Deprecated alias from the source:
`export const requestEndRound = endRound`. -/
def requestEndRound := endRound

/-- Deprecated alias from the source:
`export const requestEndEvent = endEvent`. -/
def requestEndEvent := endEvent

/-- Deprecated alias from the source:
`export const requestForceResult = forceResult`. -/
def requestForceResult := forceResult

/-- Deprecated alias from the source:
`export const requestReplay = replay`. -/
def requestReplay := replay

/-- Modelled from the spec: the defining line of `requestPlay` is missing
from the available source; `src/src/index.ts` re-exports it with the
comment `requestPlay, // @deprecated - use play`, and the deprecated-alias
design note prescribes thin aliases over one canonical operation set,
never duplicated logic, so `requestPlay` is the alias of `play`. -/
def requestPlay := play

/-- Run a POST-based operation against a network oracle: a synchronous
resolution error issues no request; otherwise the single client request
is issued and its response handled by `StakeEngineClient.post`. The
first component lists the requests actually sent. -/
def runPost (r : Except String StakeEngineClient.PostOptions)
    (net : Request → HttpResponse) :
    List Request × Except String (List (String × JVal)) :=
  match r with
  | .error e => ([], .error e)
  | .ok o => ([StakeEngineClient.postRequest o], StakeEngineClient.post o net)

/-- Run a GET-based operation against a network oracle; same shape as
`runPost`. -/
def runGet (r : Except String StakeEngineClient.GetOptions)
    (net : Request → HttpResponse) :
    List Request × Except String (List (String × JVal)) :=
  match r with
  | .error e => ([], .error e)
  | .ok o => ([StakeEngineClient.getRequest o], StakeEngineClient.get o net)

/-- The amount conversion performed by `play` (and shown in the debug
guide): a bare multiplication by `API_AMOUNT_MULTIPLIER`. -/
def toApiAmount (x : ℚ) : ℚ := x * API_AMOUNT_MULTIPLIER

-- Helper lemmas -------------------------------------------------------------

theorem jsOr_pos (x y : Option String) (h : truthy x = true) : jsOr x y = x := by
  simp [jsOr, h]

theorem jsOrD_pos (x : Option String) (d : String) (h : truthy x = true) :
    jsOrD x d = x.getD "" := by
  simp [jsOrD, h]

theorem jsOr_neg (x y : Option String) (h : truthy x = false) : jsOr x y = y := by
  simp [jsOr, h]

theorem jsOrD_neg (x : Option String) (d : String) (h : truthy x = false) :
    jsOrD x d = d := by
  simp [jsOrD, h]

/-- A constant network oracle used by witnesses: every request gets a
200 response with an empty JSON object body. -/
def constNet : Request → HttpResponse :=
  fun _ => { status := 200, statusText := "OK", jsonBody := some [] }

-- Claim theorems -------------------------------------------------------------

/-- Claim C1: for every operation and every resolved field (sessionID,
rgsUrl, language, currency), an explicit non-empty option is the resolved
value; an undefined or empty explicit option resolves to the ambient URL
value when one is present; when neither is present, resolution fails for
sessionID and rgsUrl (the operations raise the missing-parameter errors)
and yields the fixed defaults language "en" and currency "USD". In
particular explicit sessionID "A" beats ambient "B", and ambient "B" is
used when the explicit option is undefined. Every operation resolves each
field by the same `jsOr`/`jsOrD` expression over `getUrlParams`, so the
generic conjuncts cover all of them; the operation-level conjuncts
instantiate the law on `authenticate`. -/
theorem C1_resolution_priority :
    (∀ (e : String) (a : Option String), e ≠ "" → jsOr (some e) a = some e) ∧
    (∀ (e d : String), e ≠ "" → jsOrD (some e) d = e) ∧
    (∀ (x : Option String) (w : String), truthy x = false → jsOr x (some w) = some w) ∧
    (∀ (x : Option String) (w : String), truthy x = false → w ≠ "" → jsOrD x w = w) ∧
    (∀ ctx : UrlCtx, truthy ctx.lang = false → (getUrlParams ctx).language = "en") ∧
    (∀ ctx : UrlCtx, truthy ctx.currency = false → (getUrlParams ctx).currency = "USD") ∧
    (∀ (opts : AuthenticateOptions) (ctx : UrlCtx),
      truthy (jsOr opts.sessionID ctx.sessionID) = false →
      authenticate opts ctx = .error sessionIDRequiredMsg) ∧
    (∀ (opts : AuthenticateOptions) (ctx : UrlCtx),
      truthy (jsOr opts.sessionID ctx.sessionID) = true →
      truthy (jsOr opts.rgsUrl ctx.rgs_url) = false →
      authenticate opts ctx = .error rgsUrlRequiredMsg) ∧
    authenticate { sessionID := some "A", rgsUrl := some "h" } { sessionID := some "B" }
      = .ok { url := "/wallet/authenticate", rgsUrl := "h",
              vars := some [("sessionID", .str "A"), ("language", .str "en")] } ∧
    authenticate { rgsUrl := some "h" } { sessionID := some "B" }
      = .ok { url := "/wallet/authenticate", rgsUrl := "h",
              vars := some [("sessionID", .str "B"), ("language", .str "en")] } := by
  refine ⟨?_, ?_, ?_, ?_, ?_, ?_, ?_, ?_, rfl, rfl⟩
  · intro e a he
    simp [jsOr, truthy, he]
  · intro e d he
    simp [jsOrD, truthy, he]
  · intro x w h
    simp [jsOr, h]
  · intro x w h _
    simp [jsOrD, h]
  · intro ctx h
    simp [getUrlParams, jsOrD, h]
  · intro ctx h
    simp [getUrlParams, jsOrD, h]
  · intro opts ctx h
    unfold authenticate
    dsimp only [getUrlParams]
    rw [if_pos (by simp [h])]
  · intro opts ctx h1 h2
    unfold authenticate
    dsimp only [getUrlParams]
    rw [if_neg (by simp [h1]), if_pos (by simp [h2])]

/-- Witness for C1 at concrete inputs: explicit "A" beats ambient "B",
ambient "B" is used when the explicit option is undefined, the defaults
apply in the empty context, and `authenticate` with nothing resolvable
fails with the missing-session message. -/
theorem C1_resolution_priority_witness :
    jsOr (some "A") (some "B") = some "A" ∧
    jsOrD (some "fr") "en" = "fr" ∧
    jsOr none (some "B") = some "B" ∧
    jsOrD (some "") "USD" = "USD" ∧
    (getUrlParams emptyCtx).language = "en" ∧
    (getUrlParams emptyCtx).currency = "USD" ∧
    authenticate {} emptyCtx = .error sessionIDRequiredMsg ∧
    authenticate { sessionID := some "s" } emptyCtx = .error rgsUrlRequiredMsg :=
  ⟨C1_resolution_priority.1 "A" (some "B") (by decide),
   C1_resolution_priority.2.1 "fr" "en" (by decide),
   C1_resolution_priority.2.2.1 none "B" (by decide),
   C1_resolution_priority.2.2.2.1 (some "") "USD" (by decide) (by decide),
   C1_resolution_priority.2.2.2.2.1 emptyCtx (by decide),
   C1_resolution_priority.2.2.2.2.2.1 emptyCtx (by decide),
   C1_resolution_priority.2.2.2.2.2.2.1 {} emptyCtx (by decide),
   C1_resolution_priority.2.2.2.2.2.2.2.1 { sessionID := some "s" } emptyCtx
     (by decide) (by decide)⟩

/-- Claim C2: when a required parameter (sessionID for the five
session-based operations, rgsUrl for all seven) resolves to nothing from
both the explicit options and the ambient context, the operation raises
the missing-parameter error synchronously and no request is sent (the
issued-request list is empty); `replay` and `forceResult` take no
sessionID at all, succeed whenever rgsUrl resolves, and their only
possible synchronous error is the missing-rgsUrl one. -/
theorem C2_missing_required_params (net : Request → HttpResponse) (ctx : UrlCtx) :
    (∀ opts : AuthenticateOptions, truthy (jsOr opts.sessionID ctx.sessionID) = false →
      runPost (authenticate opts ctx) net = ([], .error sessionIDRequiredMsg)) ∧
    (∀ opts : PlayOptions, truthy (jsOr opts.sessionID ctx.sessionID) = false →
      runPost (play opts ctx) net = ([], .error sessionIDRequiredMsg)) ∧
    (∀ opts : EndRoundOptions, truthy (jsOr opts.sessionID ctx.sessionID) = false →
      runPost (endRound opts ctx) net = ([], .error sessionIDRequiredMsg)) ∧
    (∀ opts : EndEventOptions, truthy (jsOr opts.sessionID ctx.sessionID) = false →
      runPost (endEvent opts ctx) net = ([], .error sessionIDRequiredMsg)) ∧
    (∀ opts : BalanceOptions, truthy (jsOr opts.sessionID ctx.sessionID) = false →
      runPost (getBalance opts ctx) net = ([], .error sessionIDRequiredMsg)) ∧
    (∀ opts : AuthenticateOptions, truthy (jsOr opts.sessionID ctx.sessionID) = true →
      truthy (jsOr opts.rgsUrl ctx.rgs_url) = false →
      runPost (authenticate opts ctx) net = ([], .error rgsUrlRequiredMsg)) ∧
    (∀ opts : PlayOptions, truthy (jsOr opts.sessionID ctx.sessionID) = true →
      truthy (jsOr opts.rgsUrl ctx.rgs_url) = false →
      runPost (play opts ctx) net = ([], .error rgsUrlRequiredMsg)) ∧
    (∀ opts : EndRoundOptions, truthy (jsOr opts.sessionID ctx.sessionID) = true →
      truthy (jsOr opts.rgsUrl ctx.rgs_url) = false →
      runPost (endRound opts ctx) net = ([], .error rgsUrlRequiredMsg)) ∧
    (∀ opts : EndEventOptions, truthy (jsOr opts.sessionID ctx.sessionID) = true →
      truthy (jsOr opts.rgsUrl ctx.rgs_url) = false →
      runPost (endEvent opts ctx) net = ([], .error rgsUrlRequiredMsg)) ∧
    (∀ opts : BalanceOptions, truthy (jsOr opts.sessionID ctx.sessionID) = true →
      truthy (jsOr opts.rgsUrl ctx.rgs_url) = false →
      runPost (getBalance opts ctx) net = ([], .error rgsUrlRequiredMsg)) ∧
    (∀ opts : ForceResultOptions, truthy (jsOr opts.rgsUrl ctx.rgs_url) = false →
      runPost (forceResult opts ctx) net = ([], .error rgsUrlRequiredMsg)) ∧
    (∀ opts : ReplayOptions, truthy (jsOr opts.rgsUrl ctx.rgs_url) = false →
      runGet (replay opts ctx) net = ([], .error rgsUrlRequiredMsg)) ∧
    (∀ opts : ForceResultOptions, truthy (jsOr opts.rgsUrl ctx.rgs_url) = true →
      ∃ po, forceResult opts ctx = .ok po) ∧
    (∀ opts : ReplayOptions, truthy (jsOr opts.rgsUrl ctx.rgs_url) = true →
      ∃ go, replay opts ctx = .ok go) ∧
    (∀ (opts : ForceResultOptions) (e : String),
      forceResult opts ctx = .error e → e = rgsUrlRequiredMsg) ∧
    (∀ (opts : ReplayOptions) (e : String),
      replay opts ctx = .error e → e = rgsUrlRequiredMsg) := by
  refine ⟨?_, ?_, ?_, ?_, ?_, ?_, ?_, ?_, ?_, ?_, ?_, ?_, ?_, ?_, ?_, ?_⟩
  · intro opts h
    unfold runPost authenticate
    dsimp only [getUrlParams]
    rw [if_pos (by simp [h])]
  · intro opts h
    unfold runPost play
    dsimp only [getUrlParams]
    rw [if_pos (by simp [h])]
  · intro opts h
    unfold runPost endRound
    dsimp only [getUrlParams]
    rw [if_pos (by simp [h])]
  · intro opts h
    unfold runPost endEvent
    dsimp only [getUrlParams]
    rw [if_pos (by simp [h])]
  · intro opts h
    unfold runPost getBalance
    dsimp only [getUrlParams]
    rw [if_pos (by simp [h])]
  · intro opts h1 h2
    unfold runPost authenticate
    dsimp only [getUrlParams]
    rw [if_neg (by simp [h1]), if_pos (by simp [h2])]
  · intro opts h1 h2
    unfold runPost play
    dsimp only [getUrlParams]
    rw [if_neg (by simp [h1]), if_pos (by simp [h2])]
  · intro opts h1 h2
    unfold runPost endRound
    dsimp only [getUrlParams]
    rw [if_neg (by simp [h1]), if_pos (by simp [h2])]
  · intro opts h1 h2
    unfold runPost endEvent
    dsimp only [getUrlParams]
    rw [if_neg (by simp [h1]), if_pos (by simp [h2])]
  · intro opts h1 h2
    unfold runPost getBalance
    dsimp only [getUrlParams]
    rw [if_neg (by simp [h1]), if_pos (by simp [h2])]
  · intro opts h
    unfold runPost forceResult
    dsimp only [getUrlParams]
    rw [if_pos (by simp [h])]
  · intro opts h
    unfold runGet replay
    dsimp only [getUrlParams]
    rw [if_pos (by simp [h])]
  · intro opts h
    unfold forceResult
    dsimp only [getUrlParams]
    rw [if_neg (by simp [h])]
    exact ⟨_, rfl⟩
  · intro opts h
    unfold replay
    dsimp only [getUrlParams]
    rw [if_neg (by simp [h])]
    exact ⟨_, rfl⟩
  · intro opts e h
    unfold forceResult at h
    dsimp only [getUrlParams] at h
    split at h
    · exact (Except.error.inj h).symm
    · exact absurd h (by simp)
  · intro opts e h
    unfold replay at h
    dsimp only [getUrlParams] at h
    split at h
    · exact (Except.error.inj h).symm
    · exact absurd h (by simp)

/-- Witness for C2 at concrete inputs: with an empty ambient context and
no explicit values, `authenticate` and `play` fail with the
missing-session error issuing no request, `replay` fails with the
missing-rgsUrl error issuing no request, and `forceResult` with an
explicit rgsUrl succeeds at resolution. -/
theorem C2_missing_required_params_witness :
    runPost (authenticate {} emptyCtx) constNet = ([], .error sessionIDRequiredMsg) ∧
    runPost (play { amount := 1, mode := "base" } emptyCtx) constNet
      = ([], .error sessionIDRequiredMsg) ∧
    runPost (play { amount := 1, mode := "base", sessionID := some "s" } emptyCtx) constNet
      = ([], .error rgsUrlRequiredMsg) ∧
    runGet (replay { game := "g", version := "1", mode := "m", event := "e" } emptyCtx)
        constNet
      = ([], .error rgsUrlRequiredMsg) ∧
    (∃ po, forceResult { mode := "base", search := {}, rgsUrl := some "h" } emptyCtx
      = .ok po) :=
  ⟨(C2_missing_required_params constNet emptyCtx).1 {} (by decide),
   (C2_missing_required_params constNet emptyCtx).2.1
     { amount := 1, mode := "base" } (by decide),
   (C2_missing_required_params constNet emptyCtx).2.2.2.2.2.2.1
     { amount := 1, mode := "base", sessionID := some "s" } (by decide) (by decide),
   (C2_missing_required_params constNet emptyCtx).2.2.2.2.2.2.2.2.2.2.2.1
     { game := "g", version := "1", mode := "m", event := "e" } (by decide),
   (C2_missing_required_params constNet emptyCtx).2.2.2.2.2.2.2.2.2.2.2.2.1
     { mode := "base", search := {}, rgsUrl := some "h" } (by decide)⟩

/-- Counterexample to claim C3: the conversion in `play` is a bare
multiplication with no rounding. For the non-negative finite decimal
amount 1/10000000 (0.0000001), the amount field sent is 1/10 — not the
claimed round(amount * MULTIPLIER) = 0, and not an integer. -/
theorem C3_counterexample :
    (play { amount := 1/10000000, mode := "base", currency := some "USD",
            sessionID := some "s", rgsUrl := some "h" } emptyCtx).map
        (fun po => lookupField (po.vars.getD []) "amount")
      = .ok (some (.num ((1/10000000 : ℚ) * API_AMOUNT_MULTIPLIER))) ∧
    (1/10000000 : ℚ) * API_AMOUNT_MULTIPLIER = 1/10 ∧
    (0 : ℚ) ≤ 1/10000000 ∧
    ((1 : ℚ)/10) ≠ ((round ((1/10000000 : ℚ) * API_AMOUNT_MULTIPLIER) : ℤ) : ℚ) ∧
    ¬ ∃ n : ℤ, ((1 : ℚ)/10) = (n : ℚ) := by
  refine ⟨rfl, ?_, ?_, ?_, ?_⟩
  · norm_num [API_AMOUNT_MULTIPLIER]
  · norm_num
  · norm_num [API_AMOUNT_MULTIPLIER, round_eq]
  · rintro ⟨n, hn⟩
    have h1 : ((1 : ℤ) : ℚ) = ((10 * n : ℤ) : ℚ) := by push_cast; linarith [hn]
    have h2 : (1 : ℤ) = 10 * n := by exact_mod_cast h1
    omega

/-- Claim C3 (amended): for every amount, the amount field `play` sends
equals amount * API_AMOUNT_MULTIPLIER exactly — no rounding is applied —
and it is non-negative whenever the amount is non-negative; it is an
integer exactly when amount * API_AMOUNT_MULTIPLIER is an integer (for
instance whenever the amount has at most six decimal digits), but not in
general. -/
theorem C3_amended_no_rounding (opts : PlayOptions) (ctx : UrlCtx)
    (po : StakeEngineClient.PostOptions) (h : play opts ctx = .ok po) :
    lookupField (po.vars.getD []) "amount"
      = some (.num (opts.amount * API_AMOUNT_MULTIPLIER)) ∧
    (0 ≤ opts.amount → 0 ≤ opts.amount * API_AMOUNT_MULTIPLIER) := by
  constructor
  · unfold play at h
    dsimp only [getUrlParams] at h
    split at h
    · exact absurd h (by simp)
    · split at h
      · exact absurd h (by simp)
      · cases h
        rfl
  · intro hnn
    have : (0 : ℚ) ≤ API_AMOUNT_MULTIPLIER := by norm_num [API_AMOUNT_MULTIPLIER]
    exact mul_nonneg hnn this

/-- Witness for the amended C3 at a concrete input: `play` with amount 1
sends the exact product 1 * API_AMOUNT_MULTIPLIER, a non-negative
value. -/
theorem C3_amended_no_rounding_witness :
    lookupField
        ((some [("mode", JVal.str "base"), ("currency", JVal.str "USD"),
                ("sessionID", JVal.str "s"),
                ("amount", JVal.num ((1 : ℚ) * API_AMOUNT_MULTIPLIER))] :
            Option (List (String × JVal))).getD []) "amount"
      = some (.num ((1 : ℚ) * API_AMOUNT_MULTIPLIER)) ∧
    ((0 : ℚ) ≤ (1 : ℚ) → (0 : ℚ) ≤ (1 : ℚ) * API_AMOUNT_MULTIPLIER) :=
  C3_amended_no_rounding
    { amount := 1, mode := "base", currency := some "USD",
      sessionID := some "s", rgsUrl := some "h" } emptyCtx
    { url := "/wallet/play", rgsUrl := "h",
      vars := some [("mode", JVal.str "base"), ("currency", JVal.str "USD"),
                    ("sessionID", JVal.str "s"),
                    ("amount", JVal.num ((1 : ℚ) * API_AMOUNT_MULTIPLIER))] }
    rfl

/-- Claim C4: the amount conversion performed by `play` is linear and
exact on rationals (the exact model of representable decimal inputs):
1.00 converts to 1000000, 10.50 to 10500000, 0 to 0; for every x with at
most two decimal digits whose product with the multiplier is an integer,
dividing the converted amount by the multiplier gives x back; and `play`
sends exactly `toApiAmount` of its amount option. -/
theorem C4_conversion_linear_exact :
    toApiAmount 1 = 1000000 ∧
    toApiAmount (10.50 : ℚ) = 10500000 ∧
    toApiAmount 0 = 0 ∧
    (∀ x : ℚ, (∃ k : ℤ, x = (k : ℚ)/100) →
      (∃ n : ℤ, x * API_AMOUNT_MULTIPLIER = (n : ℚ)) →
      toApiAmount x / API_AMOUNT_MULTIPLIER = x) ∧
    (∀ (opts : PlayOptions) (ctx : UrlCtx) (po : StakeEngineClient.PostOptions),
      play opts ctx = .ok po →
      lookupField (po.vars.getD []) "amount" = some (.num (toApiAmount opts.amount))) := by
  refine ⟨?_, ?_, ?_, ?_, ?_⟩
  · norm_num [toApiAmount, API_AMOUNT_MULTIPLIER]
  · norm_num [toApiAmount, API_AMOUNT_MULTIPLIER]
  · norm_num [toApiAmount, API_AMOUNT_MULTIPLIER]
  · intro x _ _
    have hM : (API_AMOUNT_MULTIPLIER : ℚ) ≠ 0 := by norm_num [API_AMOUNT_MULTIPLIER]
    rw [toApiAmount, mul_div_assoc, div_self hM, mul_one]
  · intro opts ctx po h
    unfold play at h
    dsimp only [getUrlParams] at h
    split at h
    · exact absurd h (by simp)
    · split at h
      · exact absurd h (by simp)
      · cases h
        rfl

/-- Witness for C4 at the concrete input 10.50: it has two decimal
digits, its product with the multiplier is the integer 10500000, and the
round trip returns 10.50. -/
theorem C4_conversion_linear_exact_witness :
    toApiAmount (10.50 : ℚ) / API_AMOUNT_MULTIPLIER = (10.50 : ℚ) ∧
    lookupField
        ((some [("mode", JVal.str "base"), ("currency", JVal.str "USD"),
                ("sessionID", JVal.str "s"),
                ("amount", JVal.num ((10.50 : ℚ) * API_AMOUNT_MULTIPLIER))] :
            Option (List (String × JVal))).getD []) "amount"
      = some (.num (toApiAmount (10.50 : ℚ))) :=
  ⟨C4_conversion_linear_exact.2.2.2.1 (10.50 : ℚ)
    ⟨1050, by norm_num⟩ ⟨10500000, by norm_num [API_AMOUNT_MULTIPLIER]⟩,
   C4_conversion_linear_exact.2.2.2.2
    { amount := (10.50 : ℚ), mode := "base", currency := some "USD",
      sessionID := some "s", rgsUrl := some "h" } emptyCtx
    { url := "/wallet/play", rgsUrl := "h",
      vars := some [("mode", JVal.str "base"), ("currency", JVal.str "USD"),
                    ("sessionID", JVal.str "s"),
                    ("amount", JVal.num ((10.50 : ℚ) * API_AMOUNT_MULTIPLIER))] }
    rfl⟩

/-- A non-200 response whose JSON body has a message field holding the
empty string. -/
def respEmptyMessage : HttpResponse :=
  { status := 500, statusText := "Internal Server Error",
    jsonBody := some [("message", .str "")] }

/-- Counterexample to claim C5: a non-200 response whose body parses as
JSON and contains a message field with value the empty string does not
yield an error whose message equals that value — the falsy field falls
through the JavaScript `||` to the generic fallback. -/
theorem C5_counterexample :
    StakeEngineClient.post
        { url := "/wallet/balance", rgsUrl := "h",
          vars := some [("sessionID", .str "s")] }
        (fun _ => respEmptyMessage)
      = .error "RGS API error: 500 Internal Server Error" ∧
    lookupField (respEmptyMessage.jsonBody.getD []) "message" = some (.str "") ∧
    "RGS API error: 500 Internal Server Error" ≠ "" := by
  refine ⟨rfl, rfl, by decide⟩

/-- Claim C5 (amended): for every operation (every POST and every GET
the client makes), a non-200 response raises exactly one error; when the
body parses as JSON and contains a message field holding a non-empty
string, the raised message equals that value; when the body is not
parseable JSON, the raised message is the fallback built from the numeric
status code and the status text (so it contains both), and the call does
not crash. -/
theorem C5_amended_error_mapping (o : StakeEngineClient.PostOptions)
    (g : StakeEngineClient.GetOptions) (net : Request → HttpResponse) :
    (∀ m : String, m ≠ "" →
      (net (StakeEngineClient.postRequest o)).status ≠ 200 →
      lookupField ((net (StakeEngineClient.postRequest o)).jsonBody.getD []) "message"
        = some (.str m) →
      StakeEngineClient.post o net = .error m) ∧
    ((net (StakeEngineClient.postRequest o)).status ≠ 200 →
      (net (StakeEngineClient.postRequest o)).jsonBody = none →
      StakeEngineClient.post o net
        = .error ("RGS API error: "
            ++ toString (net (StakeEngineClient.postRequest o)).status
            ++ " " ++ (net (StakeEngineClient.postRequest o)).statusText)) ∧
    (∀ m : String, m ≠ "" →
      (net (StakeEngineClient.getRequest g)).status ≠ 200 →
      lookupField ((net (StakeEngineClient.getRequest g)).jsonBody.getD []) "message"
        = some (.str m) →
      StakeEngineClient.get g net = .error m) ∧
    ((net (StakeEngineClient.getRequest g)).status ≠ 200 →
      (net (StakeEngineClient.getRequest g)).jsonBody = none →
      StakeEngineClient.get g net
        = .error ("RGS API error: "
            ++ toString (net (StakeEngineClient.getRequest g)).status
            ++ " " ++ (net (StakeEngineClient.getRequest g)).statusText)) := by
  refine ⟨?_, ?_, ?_, ?_⟩
  · intro m hm hs hmsg
    unfold StakeEngineClient.post
    dsimp only
    rw [if_pos hs]
    unfold rgsErrorMessage
    dsimp only
    rw [hmsg]
    simp [truthyJ, jsToString, hm]
  · intro hs hb
    unfold StakeEngineClient.post
    dsimp only
    rw [if_pos hs]
    unfold rgsErrorMessage
    rw [hb]
    rfl
  · intro m hm hs hmsg
    unfold StakeEngineClient.get
    dsimp only
    rw [if_pos hs]
    unfold rgsErrorMessage
    dsimp only
    rw [hmsg]
    simp [truthyJ, jsToString, hm]
  · intro hs hb
    unfold StakeEngineClient.get
    dsimp only
    rw [if_pos hs]
    unfold rgsErrorMessage
    rw [hb]
    rfl

/-- A non-200 response with the JSON body holding message "bad
session". -/
def respBadSession : HttpResponse :=
  { status := 400, statusText := "Bad Request",
    jsonBody := some [("message", .str "bad session")] }

/-- A non-200 response whose body is not parseable JSON. -/
def respNotJson : HttpResponse :=
  { status := 502, statusText := "Bad Gateway", jsonBody := none }

/-- Witness for the amended C5 at concrete inputs: body
message "bad session" yields exactly that error message, and a non-JSON
body yields the fallback with the status code and status text. -/
theorem C5_amended_error_mapping_witness :
    StakeEngineClient.post
        { url := "/wallet/balance", rgsUrl := "h",
          vars := some [("sessionID", .str "s")] }
        (fun _ => respBadSession)
      = .error "bad session" ∧
    StakeEngineClient.get { url := "/bet/replay/g/1/m/e", rgsUrl := "h" }
        (fun _ => respNotJson)
      = .error ("RGS API error: " ++ toString (502 : Nat) ++ " " ++ "Bad Gateway") :=
  ⟨(C5_amended_error_mapping
      { url := "/wallet/balance", rgsUrl := "h", vars := some [("sessionID", .str "s")] }
      { url := "/bet/replay/g/1/m/e", rgsUrl := "h" }
      (fun _ => respBadSession)).1 "bad session" (by decide) (by decide) rfl,
   (C5_amended_error_mapping
      { url := "/wallet/balance", rgsUrl := "h", vars := some [("sessionID", .str "s")] }
      { url := "/bet/replay/g/1/m/e", rgsUrl := "h" }
      (fun _ => respNotJson)).2.2.2 (by decide) rfl⟩

/-- Claim C6: `play` with explicit options sessionID "s1", rgsUrl "h",
amount 1.00, mode "base" produces exactly one outbound POST request, and
its JSON body has amount 1000000 and sessionID "s1" — for every ambient
context and every network oracle. -/
theorem C6_play_explicit_request (ctx : UrlCtx) (net : Request → HttpResponse) :
    (runPost (play { sessionID := some "s1", rgsUrl := some "h", amount := 1,
                     mode := "base" } ctx) net).1.length = 1 ∧
    ∀ req ∈ (runPost (play { sessionID := some "s1", rgsUrl := some "h", amount := 1,
                             mode := "base" } ctx) net).1,
      req.method = .POST ∧
      lookupField (req.body.getD []) "amount" = some (.num 1000000) ∧
      lookupField (req.body.getD []) "sessionID" = some (.str "s1") := by
  have hplay : play { sessionID := some "s1", rgsUrl := some "h", amount := 1,
                      mode := "base" } ctx
      = .ok { url := "/wallet/play", rgsUrl := "h",
              vars := some [("mode", JVal.str "base"),
                            ("currency", JVal.str (jsOrD ctx.currency "USD")),
                            ("sessionID", JVal.str "s1"),
                            ("amount", JVal.num ((1 : ℚ) * API_AMOUNT_MULTIPLIER))] } :=
    rfl
  have hamt : (1 : ℚ) * API_AMOUNT_MULTIPLIER = 1000000 := by
    norm_num [API_AMOUNT_MULTIPLIER]
  rw [hplay]
  unfold runPost
  constructor
  · rfl
  · intro req hreq
    rw [List.mem_singleton] at hreq
    subst hreq
    refine ⟨rfl, ?_, rfl⟩
    have hl : lookupField
        ((StakeEngineClient.postRequest
            { url := "/wallet/play", rgsUrl := "h",
              vars := some [("mode", JVal.str "base"),
                            ("currency", JVal.str (jsOrD ctx.currency "USD")),
                            ("sessionID", JVal.str "s1"),
                            ("amount", JVal.num ((1 : ℚ) * API_AMOUNT_MULTIPLIER))] }).body.getD [])
        "amount" = some (.num ((1 : ℚ) * API_AMOUNT_MULTIPLIER)) := rfl
    rw [hl, hamt]

/-- Witness for C6 at the empty ambient context: the one issued request
is a POST whose body carries amount 1000000 and sessionID "s1". -/
theorem C6_play_explicit_request_witness :
    (runPost (play { sessionID := some "s1", rgsUrl := some "h", amount := 1,
                     mode := "base" } emptyCtx) constNet).1.length = 1 ∧
    (StakeEngineClient.postRequest
        { url := "/wallet/play", rgsUrl := "h",
          vars := some [("mode", JVal.str "base"),
                        ("currency", JVal.str "USD"),
                        ("sessionID", JVal.str "s1"),
                        ("amount", JVal.num ((1 : ℚ) * API_AMOUNT_MULTIPLIER))] }).method
      = .POST :=
  ⟨(C6_play_explicit_request emptyCtx constNet).1,
   ((C6_play_explicit_request emptyCtx constNet).2 _ (List.mem_singleton.mpr rfl)).1⟩

/-- Claim C7: every deprecated exported name denotes exactly the same
function as its canonical counterpart — the aliases are definitional,
with no duplicated logic (`requestPlay`, whose defining line is absent
from the available source, is modelled from the spec as the alias of
`play`). Function-level equality gives equal results on every input. -/
theorem C7_deprecated_aliases :
    requestBet = play ∧
    requestPlay = play ∧
    requestAuthenticate = authenticate ∧
    requestBalance = getBalance ∧
    requestEndRound = endRound ∧
    requestEndEvent = endEvent ∧
    requestForceResult = forceResult ∧
    requestReplay = replay :=
  ⟨rfl, rfl, rfl, rfl, rfl, rfl, rfl, rfl⟩

/-- Claim C8: for every game, version, mode and event, a successful
`replay` resolution yields a GET request whose URL path is
/bet/replay/{game}/{version}/{mode}/{event} with the four segments
substituted literally in that order, and the request carries no body (the
fetcher omits the body on GET); the endpoint is exactly the https host
followed by that path, with nothing — in particular no query string —
appended. -/
theorem C8_replay_get_request (options : ReplayOptions) (ctx : UrlCtx)
    (go : StakeEngineClient.GetOptions) (h : replay options ctx = .ok go) :
    go.url = "/bet/replay/" ++ options.game ++ "/" ++ options.version ++ "/"
        ++ options.mode ++ "/" ++ options.event ∧
    (StakeEngineClient.getRequest go).method = .GET ∧
    (StakeEngineClient.getRequest go).body = none ∧
    (StakeEngineClient.getRequest go).endpoint
      = "https://" ++ go.rgsUrl ++ "/bet/replay/" ++ options.game ++ "/"
        ++ options.version ++ "/" ++ options.mode ++ "/" ++ options.event := by
  unfold replay at h
  dsimp only [getUrlParams] at h
  split at h
  · exact absurd h (by simp)
  · cases h
    refine ⟨rfl, rfl, rfl, ?_⟩
    dsimp only [StakeEngineClient.getRequest, fetcher]
    simp only [String.append_assoc]

/-- Witness for C8 at concrete inputs: replay of game "g", version "1",
mode "m", event "e" against explicit rgsUrl "h". -/
theorem C8_replay_get_request_witness :
    ({ url := "/bet/replay/" ++ "g" ++ "/" ++ "1" ++ "/" ++ "m" ++ "/" ++ "e",
       rgsUrl := "h" } : StakeEngineClient.GetOptions).url
      = "/bet/replay/" ++ "g" ++ "/" ++ "1" ++ "/" ++ "m" ++ "/" ++ "e" ∧
    (StakeEngineClient.getRequest
        { url := "/bet/replay/" ++ "g" ++ "/" ++ "1" ++ "/" ++ "m" ++ "/" ++ "e",
          rgsUrl := "h" }).method = .GET ∧
    (StakeEngineClient.getRequest
        { url := "/bet/replay/" ++ "g" ++ "/" ++ "1" ++ "/" ++ "m" ++ "/" ++ "e",
          rgsUrl := "h" }).body = none :=
  ⟨(C8_replay_get_request
      { game := "g", version := "1", mode := "m", event := "e", rgsUrl := some "h" }
      emptyCtx _ rfl).1,
   (C8_replay_get_request
      { game := "g", version := "1", mode := "m", event := "e", rgsUrl := some "h" }
      emptyCtx _ rfl).2.1,
   (C8_replay_get_request
      { game := "g", version := "1", mode := "m", event := "e", rgsUrl := some "h" }
      emptyCtx _ rfl).2.2.1⟩

/-- Claim C9: when every parameter an operation resolves from context is
supplied explicitly as a non-empty value, the ambient URL context cannot
influence the outcome — any two ambient contexts produce the identical
request description (hence identical outgoing requests and, against the
same network, identical results, as the final conjunct spells out for
`play`). -/
theorem C9_ambient_noninterference (ctx1 ctx2 : UrlCtx)
    (a : AuthenticateOptions) (p : PlayOptions) (er : EndRoundOptions)
    (ee : EndEventOptions) (b : BalanceOptions) (f : ForceResultOptions)
    (r : ReplayOptions)
    (haS : truthy a.sessionID = true) (haR : truthy a.rgsUrl = true)
    (haL : truthy a.language = true)
    (hpS : truthy p.sessionID = true) (hpR : truthy p.rgsUrl = true)
    (hpC : truthy p.currency = true)
    (herS : truthy er.sessionID = true) (herR : truthy er.rgsUrl = true)
    (heeS : truthy ee.sessionID = true) (heeR : truthy ee.rgsUrl = true)
    (hbS : truthy b.sessionID = true) (hbR : truthy b.rgsUrl = true)
    (hfR : truthy f.rgsUrl = true) (hrR : truthy r.rgsUrl = true) :
    authenticate a ctx1 = authenticate a ctx2 ∧
    play p ctx1 = play p ctx2 ∧
    endRound er ctx1 = endRound er ctx2 ∧
    endEvent ee ctx1 = endEvent ee ctx2 ∧
    getBalance b ctx1 = getBalance b ctx2 ∧
    forceResult f ctx1 = forceResult f ctx2 ∧
    replay r ctx1 = replay r ctx2 ∧
    (∀ net, runPost (play p ctx1) net = runPost (play p ctx2) net) := by
  have hplay : play p ctx1 = play p ctx2 := by
    unfold play
    dsimp only [getUrlParams]
    rw [jsOr_pos _ _ hpS, jsOr_pos _ _ hpS, jsOr_pos _ _ hpR, jsOr_pos _ _ hpR,
        jsOrD_pos _ _ hpC, jsOrD_pos _ _ hpC]
  refine ⟨?_, hplay, ?_, ?_, ?_, ?_, ?_, ?_⟩
  · unfold authenticate
    dsimp only [getUrlParams]
    rw [jsOr_pos _ _ haS, jsOr_pos _ _ haS, jsOr_pos _ _ haR, jsOr_pos _ _ haR,
        jsOrD_pos _ _ haL, jsOrD_pos _ _ haL]
  · unfold endRound
    dsimp only [getUrlParams]
    rw [jsOr_pos _ _ herS, jsOr_pos _ _ herS, jsOr_pos _ _ herR, jsOr_pos _ _ herR]
  · unfold endEvent
    dsimp only [getUrlParams]
    rw [jsOr_pos _ _ heeS, jsOr_pos _ _ heeS, jsOr_pos _ _ heeR, jsOr_pos _ _ heeR]
  · unfold getBalance
    dsimp only [getUrlParams]
    rw [jsOr_pos _ _ hbS, jsOr_pos _ _ hbS, jsOr_pos _ _ hbR, jsOr_pos _ _ hbR]
  · unfold forceResult
    dsimp only [getUrlParams]
    rw [jsOr_pos _ _ hfR, jsOr_pos _ _ hfR]
  · unfold replay
    dsimp only [getUrlParams]
    rw [jsOr_pos _ _ hrR, jsOr_pos _ _ hrR]
  · intro net
    rw [hplay]

/-- Witness for C9 at concrete inputs: two ambient contexts that
disagree on every parameter produce the same `play` result when all
`play` parameters are explicit. -/
theorem C9_ambient_noninterference_witness :
    play { amount := 1, mode := "base", currency := some "USD",
           sessionID := some "s", rgsUrl := some "h" }
        { sessionID := some "X", rgs_url := some "Y", lang := some "Z",
          currency := some "W" }
      = play { amount := 1, mode := "base", currency := some "USD",
               sessionID := some "s", rgsUrl := some "h" } emptyCtx :=
  (C9_ambient_noninterference
    { sessionID := some "X", rgs_url := some "Y", lang := some "Z", currency := some "W" }
    emptyCtx
    { sessionID := some "s", rgsUrl := some "h", language := some "en" }
    { amount := 1, mode := "base", currency := some "USD",
      sessionID := some "s", rgsUrl := some "h" }
    { sessionID := some "s", rgsUrl := some "h" }
    { eventIndex := 1, sessionID := some "s", rgsUrl := some "h" }
    { sessionID := some "s", rgsUrl := some "h" }
    { mode := "base", search := {}, rgsUrl := some "h" }
    { game := "g", version := "1", mode := "m", event := "e", rgsUrl := some "h" }
    (by decide) (by decide) (by decide) (by decide) (by decide) (by decide)
    (by decide) (by decide) (by decide) (by decide) (by decide) (by decide)
    (by decide) (by decide)).2.1

/-- Claim C10: for every numeric eventIndex, `endEvent` sends the event
field of its request body as the decimal string representation of the
index — a JSON string, not a number (the body entry is built with the
string constructor); the last conjunct checks the concrete rendering of
index 1 as "1". -/
theorem C10_endEvent_event_as_string (opts : EndEventOptions) (ctx : UrlCtx)
    (po : StakeEngineClient.PostOptions) (h : endEvent opts ctx = .ok po) :
    lookupField (po.vars.getD []) "event" = some (.str (toString opts.eventIndex)) ∧
    toString (1 : Int) = "1" := by
  constructor
  · unfold endEvent at h
    dsimp only [getUrlParams] at h
    split at h
    · exact absurd h (by simp)
    · split at h
      · exact absurd h (by simp)
      · cases h
        rfl
  · decide

/-- Witness for C10 at the concrete input eventIndex 1: the event field
sent is the string "1". -/
theorem C10_endEvent_event_as_string_witness :
    lookupField
        ((some [("sessionID", JVal.str "s"), ("event", JVal.str "1")] :
            Option (List (String × JVal))).getD []) "event"
      = some (.str (toString (1 : Int))) ∧
    toString (1 : Int) = "1" :=
  C10_endEvent_event_as_string
    { eventIndex := 1, sessionID := some "s", rgsUrl := some "h" } emptyCtx
    { url := "/bet/event", rgsUrl := "h",
      vars := some [("sessionID", JVal.str "s"), ("event", JVal.str "1")] }
    rfl
